import Mathlib

/-!
Shallow embedding of `src/src/utils/WeaponAiming.ts` (class `WeaponAiming`).

Modelling choices:
* JavaScript numbers are modelled as real numbers (`ℝ`); `Math.cos`/`Math.sin`
  are `Real.cos`/`Real.sin`, `Math.min` is `min`, `Math.floor` on the
  non-negative lengths involved is `Nat.floor`, `Math.PI` is `Real.pi`.
* The mutable `Phaser.GameObjects.Graphics` object is modelled by returning the
  list of drawing commands a call emits (the source clears the canvas at the
  start of `showAiming` / `showSkillAiming`, so each call's output is exactly
  that list).
* The `scene` parameter is only forwarded to the raycast helper and never used
  otherwise; it is dropped.
* `ProjectileCalculator` and `WeaponTypes` are imported by the source but are
  not part of the repository snapshot; they are modelled from the spec (see the
  individual doc comments).
-/

noncomputable section

namespace WeaponAiming

/-- A 2-D point (`Phaser.Math.Vector2` carrying `x`/`y`). -/
@[ext]
structure Vec2 where
  x : ℝ
  y : ℝ

/-- `Phaser.Math.Distance.Between(x1, y1, x2, y2)`: Euclidean distance. -/
def distBetween (x1 y1 x2 y2 : ℝ) : ℝ :=
  Real.sqrt ((x2 - x1) ^ 2 + (y2 - y1) ^ 2)

/-- The `AimingConfig` interface (colors as naturals, numbers as reals). -/
structure AimingConfig where
  lineColor : ℕ
  lineAlpha : ℝ
  fillColor : ℕ
  fillAlpha : ℝ
  lineWidth : ℝ
  maxDistance : ℝ
  showTrajectory : Bool

/-- The default configuration built in the constructor (no overrides). -/
def defaultConfig : AimingConfig :=
  { lineColor := 0xffffff
    lineAlpha := 0.7
    fillColor := 0xff0000
    fillAlpha := 0.5
    lineWidth := 2
    maxDistance := 500
    showTrajectory := true }

/-- Modelled from the spec: the wall grid (`Phaser.Tilemaps.TilemapLayer`
consumed by `ProjectileCalculator.checkRaycastHitWall`, which is not under
`src/`) is an opaque capability exposing one segment-intersection operation
that returns the first blocking point of a segment, or absent (§4.3, §6). -/
structure WallGrid where
  raycast : Vec2 → Vec2 → Option Vec2

/-- Modelled from the spec: `ProjectileCalculator.checkRaycastHitWall` walks
the segment from start to end against the wall grid and returns the first
point of contact with blocking geometry, or absent (§4.3).  The `scene`
argument of the source call is irrelevant to the result and dropped. -/
def checkRaycastHitWall (layer : WallGrid) (sx sy ex ey : ℝ) : Option Vec2 :=
  layer.raycast ⟨sx, sy⟩ ⟨ex, ey⟩

/-- A segment: the record `{ start, end }` returned by
`calculateLinearTrajectory`. -/
structure Segment where
  start : Vec2
  endPoint : Vec2

/-- Modelled from the spec: `ProjectileCalculator.calculateLinearTrajectory`
(`linear(origin, angle, distance)`), endpoint = origin + distance·(cos angle,
sin angle) (§4.2). -/
def calculateLinearTrajectory (startX startY angle distance : ℝ) : Segment :=
  { start := ⟨startX, startY⟩
    endPoint := ⟨startX + Real.cos angle * distance,
                 startY + Real.sin angle * distance⟩ }

/-- Modelled from the spec: `ProjectileCalculator.calculateParabolicTrajectory`
(`parabolic(origin, angle, initialSpeed, gravity, sampleCount, timeStep)`):
position(t) = origin + t·v0 − ½·gravity·t²·ŷ with v0 = initialSpeed·(cos
angle, sin angle), sampled at `sampleCount` points spaced by `timeStep`,
the origin being the first sample (§4.2). -/
def calculateParabolicTrajectory (startX startY angle initialSpeed gravity : ℝ)
    (sampleCount : ℕ) (timeStep : ℝ) : List Vec2 :=
  (List.range sampleCount).map fun (i : ℕ) =>
    let t : ℝ := (i : ℝ) * timeStep
    ⟨startX + Real.cos angle * initialSpeed * t,
     startY + Real.sin angle * initialSpeed * t - gravity * t ^ 2 / 2⟩

/-- The record returned by `calculateShotgunSpread`. -/
structure SpreadResult where
  center : Vec2
  leftEdge : Vec2
  rightEdge : Vec2

/-- Modelled from the spec: `ProjectileCalculator.calculateShotgunSpread`
(`conicSpread(origin, angle, distance, spreadAngle)`): center is the linear
endpoint at `angle`; edges are the linear endpoints at `angle ∓ spreadAngle`
(§4.2). -/
def calculateShotgunSpread (startX startY angle distance spreadAngle : ℝ) :
    SpreadResult :=
  { center := (calculateLinearTrajectory startX startY angle distance).endPoint
    leftEdge := (calculateLinearTrajectory startX startY (angle - spreadAngle)
      distance).endPoint
    rightEdge := (calculateLinearTrajectory startX startY (angle + spreadAngle)
      distance).endPoint }

/-- One drawing command issued on `this.graphics`. -/
inductive DrawCmd where
  | lineStyle (width : ℝ) (color : ℕ) (alpha : ℝ)
  | fillStyle (color : ℕ) (alpha : ℝ)
  | lineBetween (x1 y1 x2 y2 : ℝ)
  | fillCircle (x y radius : ℝ)
  | strokeCircle (x y radius : ℝ)
  | beginPath
  | moveTo (x y : ℝ)
  | lineTo (x y : ℝ)
  | arc (x y radius startAngle endAngle : ℝ)
  | closePath
  | fillPath
  | strokePath

/-- The state of a `WeaponAiming` instance that the aiming queries read:
its configuration and the optional wall layer set by `setWallLayer`. -/
structure State where
  config : AimingConfig
  wallLayer : Option WallGrid

/-- The result record of `showAiming` and its weapon helpers:
`{ targetPoint, trajectoryPoints? }` (an absent field is `none`). -/
structure WeaponAimResult where
  targetPoint : Vec2
  trajectoryPoints : Option (List Vec2)

/-- `Phaser.Geom.Circle` / `Phaser.Geom.Rectangle`, the possible `area` of a
skill aiming result. -/
inductive Geom where
  | circle (x y radius : ℝ)
  | rectangle (x y width height : ℝ)

/-- The result record of `showSkillAiming` and its helpers:
`{ targetPoint, area? }`. -/
structure SkillAimResult where
  targetPoint : Vec2
  area : Option Geom

/-- `showDefaultAiming`: straight aim at 60% of `maxDistance`, clipped to the
first wall hit when a wall layer is set. -/
def showDefaultAiming (w : State) (startX startY angle : ℝ) :
    WeaponAimResult × List DrawCmd :=
  let distance := w.config.maxDistance * 0.6
  let trajectory := calculateLinearTrajectory startX startY angle distance
  let endPoint : Vec2 :=
    match w.wallLayer with
    | some layer =>
      match checkRaycastHitWall layer startX startY trajectory.endPoint.x
          trajectory.endPoint.y with
      | some hitPoint => ⟨hitPoint.x, hitPoint.y⟩
      | none => ⟨trajectory.endPoint.x, trajectory.endPoint.y⟩
    | none => ⟨trajectory.endPoint.x, trajectory.endPoint.y⟩
  (⟨endPoint, none⟩,
   [DrawCmd.lineBetween startX startY endPoint.x endPoint.y,
    DrawCmd.fillCircle endPoint.x endPoint.y 5])

/-- One dash of the sniper laser-sight dotted line (loop body of
`showSniperAiming`, dash length 10, gap 5). -/
def sniperDash (startX startY angle : ℝ) (i : ℕ) : DrawCmd :=
  let startDash : ℝ := i * (10 + 5)
  DrawCmd.lineBetween (startX + Real.cos angle * startDash)
    (startY + Real.sin angle * startDash)
    (startX + Real.cos angle * (startDash + 10))
    (startY + Real.sin angle * (startDash + 10))

/-- `showSniperAiming`: straight aim at 150% of `maxDistance` (long range),
clipped to the first wall hit, drawn as a dashed laser with a scope mark. -/
def showSniperAiming (w : State) (startX startY angle : ℝ) :
    WeaponAimResult × List DrawCmd :=
  let distance := w.config.maxDistance * 1.5
  let trajectory := calculateLinearTrajectory startX startY angle distance
  let endPoint : Vec2 :=
    match w.wallLayer with
    | some layer =>
      match checkRaycastHitWall layer startX startY trajectory.endPoint.x
          trajectory.endPoint.y with
      | some hitPoint => ⟨hitPoint.x, hitPoint.y⟩
      | none => ⟨trajectory.endPoint.x, trajectory.endPoint.y⟩
    | none => ⟨trajectory.endPoint.x, trajectory.endPoint.y⟩
  let lineLength := distBetween startX startY endPoint.x endPoint.y
  let segments : ℕ := Nat.floor (lineLength / (10 + 5))
  (⟨endPoint, none⟩,
   (List.range segments).map (sniperDash startX startY angle) ++
    [DrawCmd.lineStyle 1 w.config.lineColor w.config.lineAlpha,
     DrawCmd.strokeCircle endPoint.x endPoint.y 15,
     DrawCmd.strokeCircle endPoint.x endPoint.y 5,
     DrawCmd.lineBetween (endPoint.x - 20) endPoint.y (endPoint.x + 20)
       endPoint.y,
     DrawCmd.lineBetween endPoint.x (endPoint.y - 20) endPoint.x
       (endPoint.y + 20)])

/-- `showShotgunAiming`: conic spread at 40% of `maxDistance` with a 30°
half-spread; the central aim point is clipped to the first wall hit and the
drawn sector's radius is the distance from the origin to the clipped point. -/
def showShotgunAiming (w : State) (startX startY angle : ℝ) :
    WeaponAimResult × List DrawCmd :=
  let distance := w.config.maxDistance * 0.4
  let spreadAngle := Real.pi / 6
  let spread := calculateShotgunSpread startX startY angle distance spreadAngle
  let centerPoint : Vec2 :=
    match w.wallLayer with
    | some layer =>
      match checkRaycastHitWall layer startX startY spread.center.x
          spread.center.y with
      | some hitPoint => ⟨hitPoint.x, hitPoint.y⟩
      | none => ⟨spread.center.x, spread.center.y⟩
    | none => ⟨spread.center.x, spread.center.y⟩
  let arcRadius := distBetween startX startY centerPoint.x centerPoint.y
  let startAngle := angle - spreadAngle
  let endAngle := angle + spreadAngle
  (⟨centerPoint, none⟩,
   [DrawCmd.beginPath,
    DrawCmd.moveTo startX startY,
    DrawCmd.lineTo (startX + Real.cos startAngle * arcRadius)
      (startY + Real.sin startAngle * arcRadius),
    DrawCmd.arc startX startY arcRadius startAngle endAngle,
    DrawCmd.lineTo startX startY,
    DrawCmd.closePath,
    DrawCmd.fillPath,
    DrawCmd.strokePath])

/-- The thrower's launch power: `300 + min(joystickDistance / 100, 1) * 500`
(the locals `normalizedDistance` and `power` of `showThrowerAiming`). -/
def throwerPower (joystickDistance : ℝ) : ℝ :=
  300 + min (joystickDistance / 100) 1 * 500

/-- The wall-scan loop of `showThrowerAiming`: starting from sample index `i`
with previous sample `prev`, raycast each consecutive pair of trajectory
samples in order and return the index of the first sample whose incoming
segment is obstructed, together with the hit point; `none` if no pair hits. -/
def firstPairHit (layer : WallGrid) : Vec2 → List Vec2 → ℕ → Option (ℕ × Vec2)
  | _, [], _ => none
  | prev, currentPoint :: rest, i =>
    match checkRaycastHitWall layer prev.x prev.y currentPoint.x
        currentPoint.y with
    | some hitPoint => some (i, hitPoint)
    | none => firstPairHit layer currentPoint rest (i + 1)

/-- The wall-scan of `showThrowerAiming` on the whole sample list (the `for`
loop starting at index 1). -/
def throwerFirstHit (layer : WallGrid) (trajectoryPoints : List Vec2) :
    Option (ℕ × Vec2) :=
  match trajectoryPoints with
  | [] => none
  | p :: rest => firstPairHit layer p rest 1

/-- The trajectory polyline of `showThrowerAiming` (its drawing loop over
consecutive pairs of the retained samples). -/
def pairLines : List Vec2 → List DrawCmd
  | [] => []
  | [_] => []
  | p :: q :: rest =>
    DrawCmd.lineBetween p.x p.y q.x q.y :: pairLines (q :: rest)

/-- `showThrowerAiming`: parabolic trajectory with power 300–800 driven by the
joystick distance, gravity 980, 20 samples at time step 2; with a wall layer
the samples are scanned pairwise and truncated at the first obstructed one,
and the landing point is the wall hit point (otherwise the last sample). -/
def showThrowerAiming (w : State) (startX startY angle joystickDistance : ℝ) :
    WeaponAimResult × List DrawCmd :=
  let power := throwerPower joystickDistance
  let trajectoryPoints :=
    calculateParabolicTrajectory startX startY angle power 980 20 2
  let hit : Option (ℕ × Vec2) :=
    match w.wallLayer with
    | some layer => throwerFirstHit layer trajectoryPoints
    | none => none
  let endPointIndex : ℕ :=
    match hit with
    | some (i, _) => i
    | none => trajectoryPoints.length - 1
  let endPoint : Vec2 :=
    match hit with
    | some (_, hitPoint) => ⟨hitPoint.x, hitPoint.y⟩
    | none =>
      trajectoryPoints.getD (trajectoryPoints.length - 1) ⟨startX, startY⟩
  let validTrajectoryPoints := trajectoryPoints.take (endPointIndex + 1)
  ((⟨endPoint, some validTrajectoryPoints⟩ : WeaponAimResult),
   (if w.config.showTrajectory then pairLines validTrajectoryPoints else []) ++
    [DrawCmd.fillCircle endPoint.x endPoint.y 8,
     DrawCmd.strokeCircle endPoint.x endPoint.y 30])

/-- The bomb weapon's throw distance:
`min(maxDistance * 0.3, joystickDistance * 2)`. -/
def bombDistance (maxDistance joystickDistance : ℝ) : ℝ :=
  min (maxDistance * 0.3) (joystickDistance * 2)

/-- `showBombAiming`: short straight throw; the endpoint is NOT clipped
against the wall layer (the source performs no raycast here). -/
def showBombAiming (w : State) (startX startY angle joystickDistance : ℝ) :
    WeaponAimResult × List DrawCmd :=
  let distance := bombDistance w.config.maxDistance joystickDistance
  let trajectory := calculateLinearTrajectory startX startY angle distance
  let endPoint : Vec2 := ⟨trajectory.endPoint.x, trajectory.endPoint.y⟩
  (⟨endPoint, none⟩,
   [DrawCmd.strokeCircle endPoint.x endPoint.y 50,
    DrawCmd.fillCircle endPoint.x endPoint.y 10,
    DrawCmd.lineBetween startX startY endPoint.x endPoint.y])

/-- `showMachineGunAiming`: straight aim at 80% of `maxDistance`, clipped to
the first wall hit, drawn with a crosshair mark. -/
def showMachineGunAiming (w : State) (startX startY angle : ℝ) :
    WeaponAimResult × List DrawCmd :=
  let distance := w.config.maxDistance * 0.8
  let trajectory := calculateLinearTrajectory startX startY angle distance
  let endPoint : Vec2 :=
    match w.wallLayer with
    | some layer =>
      match checkRaycastHitWall layer startX startY trajectory.endPoint.x
          trajectory.endPoint.y with
      | some hitPoint => ⟨hitPoint.x, hitPoint.y⟩
      | none => ⟨trajectory.endPoint.x, trajectory.endPoint.y⟩
    | none => ⟨trajectory.endPoint.x, trajectory.endPoint.y⟩
  (⟨endPoint, none⟩,
   [DrawCmd.lineBetween startX startY endPoint.x endPoint.y,
    DrawCmd.strokeCircle endPoint.x endPoint.y 12,
    DrawCmd.lineBetween (endPoint.x - 12) endPoint.y (endPoint.x + 12)
      endPoint.y,
    DrawCmd.lineBetween endPoint.x (endPoint.y - 12) endPoint.x
      (endPoint.y + 12)])

/-- Modelled from the spec: `WeaponType` (imported from `WeaponTypes`, which is
not under `src/`) is the weapon-category enum with kinds
default/sniper/shotgun/thrower/bomb/machinegun (§4.4); it is modelled as a
string tag so that unrecognized categories are representable. -/
def weaponTypeNames : List String :=
  ["DEFAULT", "SNIPER", "SHOTGUN", "THROWER", "BOMB", "MACHINEGUN"]

/-- `showAiming`: clear the canvas, set the configured line/fill styles, and
dispatch on the weapon type; any weapon type without its own case (including
`DEFAULT`) falls through to `showDefaultAiming`. -/
def showAiming (w : State) (startX startY angle joystickDistance : ℝ)
    (weaponType : String) : WeaponAimResult × List DrawCmd :=
  let pre : List DrawCmd :=
    [DrawCmd.lineStyle w.config.lineWidth w.config.lineColor w.config.lineAlpha,
     DrawCmd.fillStyle w.config.fillColor w.config.fillAlpha]
  let result : WeaponAimResult × List DrawCmd :=
    match weaponType with
    | "SNIPER" => showSniperAiming w startX startY angle
    | "SHOTGUN" => showShotgunAiming w startX startY angle
    | "THROWER" => showThrowerAiming w startX startY angle joystickDistance
    | "BOMB" => showBombAiming w startX startY angle joystickDistance
    | "MACHINEGUN" => showMachineGunAiming w startX startY angle
    | _ => showDefaultAiming w startX startY angle
  (result.1, pre ++ result.2)

/-- `showDefaultSkillAiming`: radius-50 circle around the caster. -/
def showDefaultSkillAiming (w : State) (startX startY : ℝ) :
    SkillAimResult × List DrawCmd :=
  (⟨⟨startX, startY⟩, some (Geom.circle startX startY 50)⟩,
   [DrawCmd.strokeCircle startX startY 50,
    DrawCmd.fillCircle startX startY 50])

/-- The dash skill's travel distance: `min(200, joystickDistance * 3)`. -/
def dashDistance (joystickDistance : ℝ) : ℝ :=
  min 200 (joystickDistance * 3)

/-- `showDashSkillAiming`: arrow toward the dash destination, up to 200 units
scaled by the joystick distance; no area. -/
def showDashSkillAiming (w : State) (startX startY angle joystickDistance : ℝ) :
    SkillAimResult × List DrawCmd :=
  let endX := startX + Real.cos angle * dashDistance joystickDistance
  let endY := startY + Real.sin angle * dashDistance joystickDistance
  let arrowAngle1 := angle + Real.pi * 0.8
  let arrowAngle2 := angle - Real.pi * 0.8
  (⟨⟨endX, endY⟩, none⟩,
   [DrawCmd.lineBetween startX startY endX endY,
    DrawCmd.lineBetween endX endY (endX + Real.cos arrowAngle1 * 10)
      (endY + Real.sin arrowAngle1 * 10),
    DrawCmd.lineBetween endX endY (endX + Real.cos arrowAngle2 * 10)
      (endY + Real.sin arrowAngle2 * 10)])

/-- `showShieldSkillAiming`: radius-50 shield circle centered on the caster. -/
def showShieldSkillAiming (w : State) (startX startY : ℝ) :
    SkillAimResult × List DrawCmd :=
  (⟨⟨startX, startY⟩, some (Geom.circle startX startY 50)⟩,
   [DrawCmd.strokeCircle startX startY 50,
    DrawCmd.lineStyle 3 0x00ffff 0.5,
    DrawCmd.strokeCircle startX startY (50 * 0.7)])

/-- `showHealSkillAiming`: radius-80 heal circle with a cross mark. -/
def showHealSkillAiming (w : State) (startX startY : ℝ) :
    SkillAimResult × List DrawCmd :=
  (⟨⟨startX, startY⟩, some (Geom.circle startX startY 80)⟩,
   [DrawCmd.strokeCircle startX startY 80,
    DrawCmd.fillCircle startX startY 80,
    DrawCmd.lineStyle 4 0xffffff 0.8,
    DrawCmd.lineBetween startX (startY - 80 * 0.5) startX (startY + 80 * 0.5),
    DrawCmd.lineBetween (startX - 80 * 0.5) startY (startX + 80 * 0.5) startY])

/-- `showScopeSkillAiming`: narrow vision cone at 150% of `maxDistance`; the
target point is the unclipped cone tip (no wall interaction). -/
def showScopeSkillAiming (w : State) (startX startY angle : ℝ) :
    SkillAimResult × List DrawCmd :=
  let distance := w.config.maxDistance * 1.5
  let endX := startX + Real.cos angle * distance
  let endY := startY + Real.sin angle * distance
  let leftAngle := angle - 0.1
  let rightAngle := angle + 0.1
  (⟨⟨endX, endY⟩, none⟩,
   [DrawCmd.beginPath,
    DrawCmd.moveTo startX startY,
    DrawCmd.lineTo (startX + Real.cos leftAngle * distance)
      (startY + Real.sin leftAngle * distance),
    DrawCmd.arc startX startY distance leftAngle rightAngle,
    DrawCmd.lineTo startX startY,
    DrawCmd.closePath,
    DrawCmd.fillPath])

/-- The bomb skill's throw distance: `min(200, joystickDistance * 2)` (the
local `maxDistance` of `showBombSkillAiming` is the literal 200). -/
def bombSkillThrowDistance (joystickDistance : ℝ) : ℝ :=
  min 200 (joystickDistance * 2)

/-- One dash of the bomb skill's dotted throw line (dash length 5, gap 5). -/
def bombSkillDash (startX startY angle : ℝ) (i : ℕ) : DrawCmd :=
  let startDash : ℝ := i * (5 + 5)
  DrawCmd.lineBetween (startX + Real.cos angle * startDash)
    (startY + Real.sin angle * startDash)
    (startX + Real.cos angle * (startDash + 5))
    (startY + Real.sin angle * (startDash + 5))

/-- `showBombSkillAiming`: thrown blast up to 200 units scaled by the joystick
distance, with a radius-70 blast circle at the landing point and a dotted
throw line. -/
def showBombSkillAiming (w : State) (startX startY angle joystickDistance : ℝ) :
    SkillAimResult × List DrawCmd :=
  let throwDistance := bombSkillThrowDistance joystickDistance
  let endX := startX + Real.cos angle * throwDistance
  let endY := startY + Real.sin angle * throwDistance
  let segments : ℕ := Nat.floor (throwDistance / (5 + 5))
  (⟨⟨endX, endY⟩, some (Geom.circle endX endY 70)⟩,
   [DrawCmd.strokeCircle endX endY 70,
    DrawCmd.fillCircle endX endY 70] ++
    (List.range segments).map (bombSkillDash startX startY angle))

/-- `showSkillAiming`: clear the canvas, set the cyan skill styles, and
dispatch on the skill-type string; unknown skill types fall through to
`showDefaultSkillAiming`. -/
def showSkillAiming (w : State) (startX startY angle joystickDistance : ℝ)
    (skillType : String) : SkillAimResult × List DrawCmd :=
  let pre : List DrawCmd :=
    [DrawCmd.lineStyle w.config.lineWidth 0x00ffff w.config.lineAlpha,
     DrawCmd.fillStyle 0x00ffff 0.3]
  let result : SkillAimResult × List DrawCmd :=
    match skillType with
    | "DASH" => showDashSkillAiming w startX startY angle joystickDistance
    | "SHIELD" => showShieldSkillAiming w startX startY
    | "HEAL" => showHealSkillAiming w startX startY
    | "SCOPE" => showScopeSkillAiming w startX startY angle
    | "BOMB" => showBombSkillAiming w startX startY angle joystickDistance
    | _ => showDefaultSkillAiming w startX startY
  (result.1, pre ++ result.2)

/-- A concrete wall grid used as a test fixture: an infinite vertical blocking
wall at `x = wx`.  A segment crossing it left-to-right is obstructed at its
intersection with the wall (the first contact point along the segment);
every other segment is unobstructed. -/
def wallAtX (wx : ℝ) : WallGrid :=
  { raycast := fun s e =>
      if s.x < wx ∧ wx ≤ e.x then
        some ⟨wx, s.y + (wx - s.x) / (e.x - s.x) * (e.y - s.y)⟩
      else none }

/-! ### Helper lemmas -/

lemma parabolic_length (x y a v g ts : ℝ) (n : ℕ) :
    (calculateParabolicTrajectory x y a v g n ts).length = n := by
  simp only [calculateParabolicTrajectory, List.length_map, List.length_range]

lemma parabolic_getElem (x y a v g ts : ℝ) (n i : ℕ) (hi : i < n) :
    (calculateParabolicTrajectory x y a v g n ts)[i]? =
      some ⟨x + Real.cos a * v * (i * ts),
            y + Real.sin a * v * (i * ts) - g * (i * ts) ^ 2 / 2⟩ := by
  simp only [calculateParabolicTrajectory, List.getElem?_map]
  rw [List.getElem?_range hi]
  rfl

lemma parabolic_getD (x y a v g ts : ℝ) (n i : ℕ) (d : Vec2) (hi : i < n) :
    (calculateParabolicTrajectory x y a v g n ts).getD i d =
      ⟨x + Real.cos a * v * (i * ts),
       y + Real.sin a * v * (i * ts) - g * (i * ts) ^ 2 / 2⟩ := by
  rw [List.getD_eq_getElem?_getD, parabolic_getElem x y a v g ts n i hi,
    Option.getD_some]

lemma take_two_of_getElem {pts : List Vec2} {p q : Vec2}
    (h0 : pts[0]? = some p) (h1 : pts[1]? = some q) :
    pts.take 2 = [p, q] := by
  match pts with
  | [] => simp at h0
  | [_] => simp at h1
  | a :: b :: rest =>
    simp only [List.getElem?_cons_zero, Option.some.injEq] at h0
    simp only [List.getElem?_cons_succ, List.getElem?_cons_zero,
      Option.some.injEq] at h1
    subst h0; subst h1; rfl

lemma throwerFirstHit_of_head_hit {layer : WallGrid} {pts : List Vec2}
    {p q h : Vec2} (h0 : pts[0]? = some p) (h1 : pts[1]? = some q)
    (hh : checkRaycastHitWall layer p.x p.y q.x q.y = some h) :
    throwerFirstHit layer pts = some (1, h) := by
  match pts with
  | [] => simp at h0
  | [_] => simp at h1
  | a :: b :: rest =>
    simp only [List.getElem?_cons_zero, Option.some.injEq] at h0
    simp only [List.getElem?_cons_succ, List.getElem?_cons_zero,
      Option.some.injEq] at h1
    subst h0; subst h1
    simp [throwerFirstHit, firstPairHit, hh]

lemma min_const_eq_scaled (c x : ℝ) (hc : 0 < c) :
    min c x = c * min (x / c) 1 := by
  rcases le_total c x with h | h
  · rw [min_eq_left h, min_eq_right ((one_le_div hc).mpr h), mul_one]
  · rw [min_eq_right h, min_eq_left ((div_le_one hc).mpr h)]
    field_simp

lemma throwerPower_zero : throwerPower 0 = 300 := by
  rw [throwerPower, zero_div]
  norm_num [min_def]

lemma firstPairHit_spec (layer : WallGrid) :
    ∀ (rest : List Vec2) (prev : Vec2) (i0 i : ℕ) (hp : Vec2),
      firstPairHit layer prev rest i0 = some (i, hp) →
      i0 ≤ i ∧
      (∃ p q, (prev :: rest)[i - i0]? = some p ∧
        (prev :: rest)[i - i0 + 1]? = some q ∧
        checkRaycastHitWall layer p.x p.y q.x q.y = some hp) ∧
      ∀ j, j < i - i0 → ∀ p q, (prev :: rest)[j]? = some p →
        (prev :: rest)[j + 1]? = some q →
        checkRaycastHitWall layer p.x p.y q.x q.y = none := by
  intro rest
  induction rest with
  | nil =>
    intro prev i0 i hp hfp
    simp [firstPairHit] at hfp
  | cons cur rest' ih =>
    intro prev i0 i hp hfp
    rw [firstPairHit] at hfp
    rcases hray : checkRaycastHitWall layer prev.x prev.y cur.x cur.y with
      _ | hpt
    · rw [hray] at hfp
      simp only [] at hfp
      obtain ⟨hle, ⟨p, q, hp0, hq0, hhit⟩, hclear⟩ := ih cur (i0 + 1) i hp hfp
      refine ⟨by omega, ⟨p, q, ?_, ?_, hhit⟩, ?_⟩
      · rw [show i - i0 = (i - (i0 + 1)) + 1 by omega,
          List.getElem?_cons_succ]
        exact hp0
      · rw [show i - i0 + 1 = (i - (i0 + 1)) + 1 + 1 by omega,
          List.getElem?_cons_succ]
        exact hq0
      · intro j hj p' q' hpj hqj
        cases j with
        | zero =>
          simp only [List.getElem?_cons_zero, Option.some.injEq] at hpj
          simp only [List.getElem?_cons_succ, List.getElem?_cons_zero,
            Option.some.injEq] at hqj
          subst hpj; subst hqj
          exact hray
        | succ j' =>
          rw [List.getElem?_cons_succ] at hpj
          rw [List.getElem?_cons_succ] at hqj
          exact hclear j' (by omega) p' q' hpj hqj
    · rw [hray] at hfp
      simp only [Option.some.injEq, Prod.mk.injEq] at hfp
      obtain ⟨hi, hh⟩ := hfp
      subst hi; subst hh
      refine ⟨le_rfl, ⟨prev, cur, by simp, by simp, hray⟩, ?_⟩
      intro j hj
      omega

lemma throwerFirstHit_spec {layer : WallGrid} {pts : List Vec2} {i : ℕ}
    {hp : Vec2} (hfh : throwerFirstHit layer pts = some (i, hp)) :
    1 ≤ i ∧
    (∃ p q, pts[i - 1]? = some p ∧ pts[i]? = some q ∧
      checkRaycastHitWall layer p.x p.y q.x q.y = some hp) ∧
    ∀ j, 1 ≤ j → j < i → ∀ p q, pts[j - 1]? = some p → pts[j]? = some q →
      checkRaycastHitWall layer p.x p.y q.x q.y = none := by
  match pts with
  | [] => simp [throwerFirstHit] at hfh
  | p0 :: rest =>
    rw [throwerFirstHit] at hfh
    obtain ⟨hle, ⟨p, q, hp0, hq0, hhit⟩, hclear⟩ :=
      firstPairHit_spec layer rest p0 1 i hp hfh
    refine ⟨hle, ⟨p, q, hp0, ?_, hhit⟩, ?_⟩
    · rw [show i = i - 1 + 1 by omega]
      exact hq0
    · intro j hj1 hji p' q' hpj hqj
      refine hclear (j - 1) (by omega) p' q' hpj ?_
      rw [show j - 1 + 1 = j by omega]
      exact hqj

lemma throwerScenario_p0 :
    (calculateParabolicTrajectory 0 0 0 (throwerPower 0) 980 20 2)[0]? =
      some ⟨0, 0⟩ := by
  rw [parabolic_getElem 0 0 0 (throwerPower 0) 980 2 20 0 (by norm_num)]
  norm_num

lemma throwerScenario_p1 :
    (calculateParabolicTrajectory 0 0 0 (throwerPower 0) 980 20 2)[1]? =
      some ⟨600, -1960⟩ := by
  rw [parabolic_getElem 0 0 0 (throwerPower 0) 980 2 20 1 (by norm_num)]
  norm_num [throwerPower_zero]

lemma throwerScenarioHit :
    throwerFirstHit (wallAtX 100)
      (calculateParabolicTrajectory 0 0 0 (throwerPower 0) 980 20 2) =
      some (1, ⟨100, -980 / 3⟩) := by
  refine throwerFirstHit_of_head_hit throwerScenario_p0 throwerScenario_p1 ?_
  simp only [checkRaycastHitWall, wallAtX]
  norm_num

lemma throwerScenarioTake :
    (calculateParabolicTrajectory 0 0 0 (throwerPower 0) 980 20 2).take 2 =
      [⟨0, 0⟩, ⟨600, -1960⟩] :=
  take_two_of_getElem throwerScenario_p0 throwerScenario_p1

/-! ### Claim theorems -/

/-- C5: for every origin, angle and input magnitude, resolving with a weapon
type that is not one of the five specifically handled kinds, or a skill type
that is not one of the five specifically handled kinds, does not fail and
returns exactly the result of the designated default profile
(`showDefaultAiming`, resp. `showDefaultSkillAiming`), after the common style
preamble. -/
theorem unknown_category_falls_back_to_default (w : State)
    (startX startY angle joystickDistance : ℝ) (weaponType skillType : String)
    (hw1 : weaponType ≠ "SNIPER") (hw2 : weaponType ≠ "SHOTGUN")
    (hw3 : weaponType ≠ "THROWER") (hw4 : weaponType ≠ "BOMB")
    (hw5 : weaponType ≠ "MACHINEGUN")
    (hs1 : skillType ≠ "DASH") (hs2 : skillType ≠ "SHIELD")
    (hs3 : skillType ≠ "HEAL") (hs4 : skillType ≠ "SCOPE")
    (hs5 : skillType ≠ "BOMB") :
    showAiming w startX startY angle joystickDistance weaponType =
      ((showDefaultAiming w startX startY angle).1,
       [DrawCmd.lineStyle w.config.lineWidth w.config.lineColor
          w.config.lineAlpha,
        DrawCmd.fillStyle w.config.fillColor w.config.fillAlpha] ++
        (showDefaultAiming w startX startY angle).2) ∧
    showSkillAiming w startX startY angle joystickDistance skillType =
      ((showDefaultSkillAiming w startX startY).1,
       [DrawCmd.lineStyle w.config.lineWidth 0x00ffff w.config.lineAlpha,
        DrawCmd.fillStyle 0x00ffff 0.3] ++
        (showDefaultSkillAiming w startX startY).2) := by
  constructor
  · unfold showAiming
    split <;> simp_all
  · unfold showSkillAiming
    split <;> simp_all

/-- Witness for C5 at the concrete unknown categories `"PLASMA"` and
`"WARP"`. -/
theorem unknown_category_falls_back_to_default_spot :
    showAiming ⟨defaultConfig, none⟩ 0 0 0 0 "PLASMA" =
      ((showDefaultAiming ⟨defaultConfig, none⟩ 0 0 0).1,
       [DrawCmd.lineStyle defaultConfig.lineWidth defaultConfig.lineColor
          defaultConfig.lineAlpha,
        DrawCmd.fillStyle defaultConfig.fillColor defaultConfig.fillAlpha] ++
        (showDefaultAiming ⟨defaultConfig, none⟩ 0 0 0).2) ∧
    showSkillAiming ⟨defaultConfig, none⟩ 0 0 0 0 "WARP" =
      ((showDefaultSkillAiming ⟨defaultConfig, none⟩ 0 0).1,
       [DrawCmd.lineStyle defaultConfig.lineWidth 0x00ffff
          defaultConfig.lineAlpha,
        DrawCmd.fillStyle 0x00ffff 0.3] ++
        (showDefaultSkillAiming ⟨defaultConfig, none⟩ 0 0).2) :=
  unknown_category_falls_back_to_default ⟨defaultConfig, none⟩ 0 0 0 0
    "PLASMA" "WARP" (by decide) (by decide) (by decide) (by decide) (by decide)
    (by decide) (by decide) (by decide) (by decide) (by decide)

/-- C6: resolving is deterministic — two calls of `showAiming` (and of
`showSkillAiming`) with identical inputs, including the same wall grid state,
return identical results: same target point, same trajectory samples, same
drawn area geometry. -/
theorem showAiming_deterministic (w : State)
    (startX startY angle joystickDistance : ℝ)
    (weaponType skillType : String) :
    showAiming w startX startY angle joystickDistance weaponType =
      showAiming w startX startY angle joystickDistance weaponType ∧
    showSkillAiming w startX startY angle joystickDistance skillType =
      showSkillAiming w startX startY angle joystickDistance skillType :=
  ⟨rfl, rfl⟩

/-- C7: with origin (0,0), angle 0, the sniper profile, no wall grid and the
default configuration (`maxDistance = 500`, sniper range `500 * 1.5 = 750`),
the returned target point is exactly (750, 0). -/
theorem sniper_target_at_750 :
    ((showSniperAiming ⟨defaultConfig, none⟩ 0 0 0).1).targetPoint =
      ⟨750, 0⟩ := by
  simp only [showSniperAiming, calculateLinearTrajectory, defaultConfig]
  norm_num

/-- C9: for every skill type, origin, angle and input magnitude, the skill
aiming result — target point, area and drawn geometry — is independent of the
wall grid: replacing the wall layer by any other (or none) leaves the result
unchanged, as no skill path consults it. -/
theorem skillAiming_wall_independent (config : AimingConfig)
    (g1 g2 : Option WallGrid) (startX startY angle joystickDistance : ℝ)
    (skillType : String) :
    showSkillAiming ⟨config, g1⟩ startX startY angle joystickDistance
        skillType =
      showSkillAiming ⟨config, g2⟩ startX startY angle joystickDistance
        skillType :=
  rfl

/-- C2 counterexample: the bomb weapon does NOT clip against the wall grid.
With a wall at x = 100 and an unclipped endpoint at (150, 0), the raycast
from the origin to the endpoint reports an obstruction at (100, 0), yet the
returned target point is the unclipped (150, 0). -/
theorem bomb_ignores_wall_grid :
    (showBombAiming ⟨defaultConfig, some (wallAtX 100)⟩ 0 0 0
        100).1.targetPoint = ⟨150, 0⟩ ∧
    checkRaycastHitWall (wallAtX 100) 0 0 150 0 = some ⟨100, 0⟩ ∧
    ((⟨150, 0⟩ : Vec2) ≠ ⟨100, 0⟩) := by
  refine ⟨?_, ?_, ?_⟩
  · simp only [showBombAiming, bombDistance, calculateLinearTrajectory,
      defaultConfig]
    norm_num [min_def]
  · simp only [checkRaycastHitWall, wallAtX]
    norm_num
  · intro h
    have hx := congrArg Vec2.x h
    norm_num at hx

/-- C2 amended: among the linear weapon categories, default, sniper and
machine gun raycast from the origin to the computed linear endpoint and return
the first obstruction point when one is found; the bomb weapon performs no
raycast and always returns the unclipped endpoint. -/
theorem linear_categories_clip_except_bomb (config : AimingConfig)
    (layer : WallGrid) (startX startY angle joystickDistance : ℝ) (h : Vec2) :
    (checkRaycastHitWall layer startX startY
        (calculateLinearTrajectory startX startY angle
          (config.maxDistance * 0.6)).endPoint.x
        (calculateLinearTrajectory startX startY angle
          (config.maxDistance * 0.6)).endPoint.y = some h →
      (showDefaultAiming ⟨config, some layer⟩ startX startY
          angle).1.targetPoint = h) ∧
    (checkRaycastHitWall layer startX startY
        (calculateLinearTrajectory startX startY angle
          (config.maxDistance * 1.5)).endPoint.x
        (calculateLinearTrajectory startX startY angle
          (config.maxDistance * 1.5)).endPoint.y = some h →
      (showSniperAiming ⟨config, some layer⟩ startX startY
          angle).1.targetPoint = h) ∧
    (checkRaycastHitWall layer startX startY
        (calculateLinearTrajectory startX startY angle
          (config.maxDistance * 0.8)).endPoint.x
        (calculateLinearTrajectory startX startY angle
          (config.maxDistance * 0.8)).endPoint.y = some h →
      (showMachineGunAiming ⟨config, some layer⟩ startX startY
          angle).1.targetPoint = h) ∧
    (showBombAiming ⟨config, some layer⟩ startX startY angle
        joystickDistance).1.targetPoint =
      (calculateLinearTrajectory startX startY angle
        (bombDistance config.maxDistance joystickDistance)).endPoint := by
  refine ⟨fun he => ?_, fun he => ?_, fun he => ?_, rfl⟩
  · simp [showDefaultAiming, he]
  · simp [showSniperAiming, he]
  · simp [showMachineGunAiming, he]

/-- Witness for C2 (amended) at the default weapon, origin (0,0), angle 0 and
a wall at x = 100 clipping the aim from (300, 0) down to (100, 0). -/
theorem linear_categories_clip_except_bomb_spot :
    checkRaycastHitWall (wallAtX 100) 0 0
        (calculateLinearTrajectory 0 0 0
          (defaultConfig.maxDistance * 0.6)).endPoint.x
        (calculateLinearTrajectory 0 0 0
          (defaultConfig.maxDistance * 0.6)).endPoint.y = some ⟨100, 0⟩ ∧
    (showDefaultAiming ⟨defaultConfig, some (wallAtX 100)⟩ 0 0
        0).1.targetPoint = ⟨100, 0⟩ := by
  have he : checkRaycastHitWall (wallAtX 100) 0 0
      (calculateLinearTrajectory 0 0 0
        (defaultConfig.maxDistance * 0.6)).endPoint.x
      (calculateLinearTrajectory 0 0 0
        (defaultConfig.maxDistance * 0.6)).endPoint.y = some ⟨100, 0⟩ := by
    simp only [checkRaycastHitWall, wallAtX, calculateLinearTrajectory,
      defaultConfig]
    norm_num
  exact ⟨he,
    (linear_categories_clip_except_bomb defaultConfig (wallAtX 100) 0 0 0 0
      ⟨100, 0⟩).1 he⟩

/-- C8 counterexample: the thrower's effective launch power is
`300 + 500·min(j/100, 1)`; at input 0 it is 300, so it is not of the form
`baseRange · min(j / norm, 1)` for any base range and normalizer (any such
form vanishes at input 0). -/
theorem thrower_power_not_pure_scaling :
    throwerPower 0 = 300 ∧
    ¬ ∃ b n : ℝ, ∀ j : ℝ, 0 ≤ j → throwerPower j = b * min (j / n) 1 := by
  refine ⟨throwerPower_zero, ?_⟩
  rintro ⟨b, n, hf⟩
  have h0 := hf 0 le_rfl
  rw [throwerPower_zero, zero_div] at h0
  norm_num [min_def] at h0

/-- C8 amended: each input-scaled range is monotonically non-decreasing in
the input magnitude and capped (dash ≤ 200, bomb-skill throw ≤ 200, thrower
power ≤ 800); dash and bomb-skill ranges equal their cap scaled by
`min(input·k / cap, 1)`, while the thrower's power is the affine
`300 + 500·min(input/100, 1)` — floored at 300, not a pure scaling. -/
theorem range_scaling_monotone_capped (j1 j2 : ℝ) (hle : j1 ≤ j2) :
    (throwerPower j1 ≤ throwerPower j2 ∧
     dashDistance j1 ≤ dashDistance j2 ∧
     bombSkillThrowDistance j1 ≤ bombSkillThrowDistance j2) ∧
    (dashDistance j2 ≤ 200 ∧ bombSkillThrowDistance j2 ≤ 200 ∧
     throwerPower j2 ≤ 800) ∧
    (dashDistance j2 = 200 * min (j2 * 3 / 200) 1 ∧
     bombSkillThrowDistance j2 = 200 * min (j2 * 2 / 200) 1 ∧
     throwerPower j2 = 300 + 500 * min (j2 / 100) 1) := by
  have hmin : min (j1 / 100) 1 ≤ min (j2 / 100) 1 :=
    min_le_min (by linarith) le_rfl
  have hcap : min (j2 / 100) 1 ≤ 1 := min_le_right _ _
  refine ⟨⟨?_, ?_, ?_⟩, ⟨?_, ?_, ?_⟩, ?_, ?_, ?_⟩
  · rw [throwerPower, throwerPower]
    nlinarith
  · exact min_le_min le_rfl (by linarith)
  · exact min_le_min le_rfl (by linarith)
  · exact min_le_left _ _
  · exact min_le_left _ _
  · rw [throwerPower]
    nlinarith
  · exact min_const_eq_scaled 200 (j2 * 3) (by norm_num)
  · exact min_const_eq_scaled 200 (j2 * 2) (by norm_num)
  · rw [throwerPower]
    ring

/-- Witness for C8 (amended) at the concrete inputs 0 ≤ 50. -/
theorem range_scaling_monotone_capped_spot :
    throwerPower 0 ≤ throwerPower 50 ∧ dashDistance 0 ≤ dashDistance 50 ∧
    dashDistance 50 ≤ 200 ∧ throwerPower 50 ≤ 800 :=
  ⟨(range_scaling_monotone_capped 0 50 (by norm_num)).1.1,
   (range_scaling_monotone_capped 0 50 (by norm_num)).1.2.1,
   (range_scaling_monotone_capped 0 50 (by norm_num)).2.1.1,
   (range_scaling_monotone_capped 0 50 (by norm_num)).2.1.2.2⟩

/-- C1 counterexample: thrower with a wall at x = 100, origin (0,0), angle 0,
input 0 (power 300).  The first pair of samples, (0,0) → (600,−1960), is
obstructed at (100, −980/3); the returned truncated trajectory is the two
samples [(0,0), (600,−1960)], whose last element is (600,−1960), while the
returned target point is the hit point (100, −980/3) — the target point does
NOT equal the last element of the returned trajectory. -/
theorem thrower_target_differs_from_last_sample :
    (showThrowerAiming ⟨defaultConfig, some (wallAtX 100)⟩ 0 0 0
        0).1.trajectoryPoints = some [⟨0, 0⟩, ⟨600, -1960⟩] ∧
    (showThrowerAiming ⟨defaultConfig, some (wallAtX 100)⟩ 0 0 0
        0).1.targetPoint = ⟨100, -980 / 3⟩ ∧
    ((⟨100, -980 / 3⟩ : Vec2) ≠ ⟨600, -1960⟩) := by
  refine ⟨?_, ?_, ?_⟩
  · simp only [showThrowerAiming, throwerScenarioHit]
    rw [show (1 : ℕ) + 1 = 2 from rfl, throwerScenarioTake]
  · simp only [showThrowerAiming, throwerScenarioHit]
  · intro h
    have hx := congrArg Vec2.x h
    norm_num at hx

/-- C1 amended: with a wall grid present the thrower resolver raycasts each
consecutive pair of trajectory samples in order; if the first obstructed pair
is the one ending at sample index i, it truncates the sample sequence at (and
including) sample i, and the returned target point is the obstruction point on
that pair's segment — which in general differs from the last element of the
returned truncated sequence; with no obstruction the target point is the last
sample and the full sequence is returned. -/
theorem thrower_truncation_characterization (config : AimingConfig)
    (layer : WallGrid) (startX startY angle joystickDistance : ℝ) :
    (∀ i hp, throwerFirstHit layer
        (calculateParabolicTrajectory startX startY angle
          (throwerPower joystickDistance) 980 20 2) = some (i, hp) →
      (showThrowerAiming ⟨config, some layer⟩ startX startY angle
          joystickDistance).1.targetPoint = hp ∧
      (showThrowerAiming ⟨config, some layer⟩ startX startY angle
          joystickDistance).1.trajectoryPoints =
        some ((calculateParabolicTrajectory startX startY angle
          (throwerPower joystickDistance) 980 20 2).take (i + 1)) ∧
      1 ≤ i ∧
      (∃ p q, (calculateParabolicTrajectory startX startY angle
          (throwerPower joystickDistance) 980 20 2)[i - 1]? = some p ∧
        (calculateParabolicTrajectory startX startY angle
          (throwerPower joystickDistance) 980 20 2)[i]? = some q ∧
        checkRaycastHitWall layer p.x p.y q.x q.y = some hp) ∧
      (∀ j, 1 ≤ j → j < i → ∀ p q,
        (calculateParabolicTrajectory startX startY angle
          (throwerPower joystickDistance) 980 20 2)[j - 1]? = some p →
        (calculateParabolicTrajectory startX startY angle
          (throwerPower joystickDistance) 980 20 2)[j]? = some q →
        checkRaycastHitWall layer p.x p.y q.x q.y = none)) ∧
    (throwerFirstHit layer
        (calculateParabolicTrajectory startX startY angle
          (throwerPower joystickDistance) 980 20 2) = none →
      (showThrowerAiming ⟨config, some layer⟩ startX startY angle
          joystickDistance).1.targetPoint =
        (calculateParabolicTrajectory startX startY angle
          (throwerPower joystickDistance) 980 20 2).getD 19
          ⟨startX, startY⟩ ∧
      (showThrowerAiming ⟨config, some layer⟩ startX startY angle
          joystickDistance).1.trajectoryPoints =
        some (calculateParabolicTrajectory startX startY angle
          (throwerPower joystickDistance) 980 20 2)) := by
  constructor
  · intro i hp hhit
    obtain ⟨hle, hfirst, hclear⟩ := throwerFirstHit_spec hhit
    refine ⟨?_, ?_, hle, hfirst, hclear⟩ <;>
      simp only [showThrowerAiming, hhit]
  · intro hnone
    refine ⟨?_, ?_⟩
    · simp only [showThrowerAiming, hnone, parabolic_length]
    · simp only [showThrowerAiming, hnone, parabolic_length]
      exact congrArg some
        (List.take_of_length_le (by simp only [parabolic_length]; omega))

/-- Witness for C1 (amended) at the thrower scenario with a wall at x = 100:
the theorem applied at the concrete first hit (index 1, point (100, −980/3)).
-/
theorem thrower_truncation_characterization_spot :
    (showThrowerAiming ⟨defaultConfig, some (wallAtX 100)⟩ 0 0 0
        0).1.targetPoint = ⟨100, -980 / 3⟩ ∧
    (showThrowerAiming ⟨defaultConfig, some (wallAtX 100)⟩ 0 0 0
        0).1.trajectoryPoints =
      some ((calculateParabolicTrajectory 0 0 0 (throwerPower 0) 980 20
        2).take 2) :=
  ⟨((thrower_truncation_characterization defaultConfig (wallAtX 100) 0 0 0
      0).1 1 ⟨100, -980 / 3⟩ throwerScenarioHit).1,
   ((thrower_truncation_characterization defaultConfig (wallAtX 100) 0 0 0
      0).1 1 ⟨100, -980 / 3⟩ throwerScenarioHit).2.1⟩

/-- C3 counterexample: for the thrower (a range-scaling category, the one the
claim's code citation points at) an input magnitude of 0 does not clamp the
effective range to 0 — the power floors at 300 — and with no wall grid the
returned target point is the last sample (11400, −707560), not the origin. -/
theorem thrower_zero_input_target_not_origin :
    (showThrowerAiming ⟨defaultConfig, none⟩ 0 0 0 0).1.targetPoint ≠
      (⟨0, 0⟩ : Vec2) := by
  have key : (showThrowerAiming ⟨defaultConfig, none⟩ 0 0 0
      0).1.targetPoint =
      ⟨0 + Real.cos 0 * throwerPower 0 * ((19 : ℕ) * 2),
       0 + Real.sin 0 * throwerPower 0 * ((19 : ℕ) * 2) -
         980 * (((19 : ℕ) : ℝ) * 2) ^ 2 / 2⟩ := by
    simp only [showThrowerAiming, parabolic_length]
    rw [show (20 : ℕ) - 1 = 19 from rfl]
    rw [parabolic_getD 0 0 0 (throwerPower 0) 980 2 20 19 ⟨0, 0⟩
      (by norm_num)]
  intro hEq
  rw [key] at hEq
  have hx := congrArg Vec2.x hEq
  rw [throwerPower_zero] at hx
  norm_num at hx

/-- C3 amended: an input magnitude of 0 never crashes; for the categories
whose range is a pure input scaling — dash skill, bomb skill, and the bomb
weapon (given a non-negative configured `maxDistance`) — the effective range
clamps to 0 and the target point equals the origin; for the thrower the
scaled component clamps to 0 but the launch power floors at its base 300, so
its target is the 300-power trajectory end, not the origin. -/
theorem zero_magnitude_clamps (w : State) (startX startY angle : ℝ) :
    (showDashSkillAiming w startX startY angle 0).1.targetPoint =
      ⟨startX, startY⟩ ∧
    (showBombSkillAiming w startX startY angle 0).1.targetPoint =
      ⟨startX, startY⟩ ∧
    (0 ≤ w.config.maxDistance →
      (showBombAiming w startX startY angle 0).1.targetPoint =
        ⟨startX, startY⟩) ∧
    throwerPower 0 = 300 := by
  have hdash : dashDistance 0 = 0 := by
    rw [dashDistance]
    norm_num [min_def]
  have hbs : bombSkillThrowDistance 0 = 0 := by
    rw [bombSkillThrowDistance]
    norm_num [min_def]
  refine ⟨?_, ?_, fun hmd => ?_, throwerPower_zero⟩
  · simp [showDashSkillAiming, hdash]
  · simp [showBombSkillAiming, hbs]
  · have hbd : bombDistance w.config.maxDistance 0 = 0 := by
      simp only [bombDistance, zero_mul]
      exact min_eq_right (mul_nonneg hmd (by norm_num))
    simp [showBombAiming, hbd, calculateLinearTrajectory]

/-- Witness for C3 (amended) at the default configuration (whose
`maxDistance` 500 is non-negative) and origin (0,0). -/
theorem zero_magnitude_clamps_spot :
    (0 : ℝ) ≤ (⟨defaultConfig, none⟩ : State).config.maxDistance ∧
    (showBombAiming ⟨defaultConfig, none⟩ 0 0 0 0).1.targetPoint = ⟨0, 0⟩ ∧
    (showDashSkillAiming ⟨defaultConfig, none⟩ 0 0 0 0).1.targetPoint =
      ⟨0, 0⟩ :=
  ⟨by norm_num [defaultConfig],
   (zero_magnitude_clamps ⟨defaultConfig, none⟩ 0 0 0).2.2.1
     (by norm_num [defaultConfig]),
   (zero_magnitude_clamps ⟨defaultConfig, none⟩ 0 0 0).1⟩

/-- C4: in the scenario origin (0,0), angle 0, shotgun (spread π/6, base
range 500·0.4 = 200) with a wall spanning the cone at x = 100, the returned
target point is clipped to (100, 0) and the resolver emits the effect sector
with apex at the origin, radius 100, from −π/6 to +π/6 (the path moveTo the
origin and the arc centered on it). -/
theorem shotgun_sector_apex_origin :
    (showShotgunAiming ⟨defaultConfig, some (wallAtX 100)⟩ 0 0
        0).1.targetPoint = ⟨100, 0⟩ ∧
    DrawCmd.moveTo 0 0 ∈
      (showShotgunAiming ⟨defaultConfig, some (wallAtX 100)⟩ 0 0 0).2 ∧
    DrawCmd.arc 0 0 100 (0 - Real.pi / 6) (0 + Real.pi / 6) ∈
      (showShotgunAiming ⟨defaultConfig, some (wallAtX 100)⟩ 0 0 0).2 := by
  have hray : checkRaycastHitWall (wallAtX 100) 0 0
      (calculateShotgunSpread 0 0 0 (defaultConfig.maxDistance * 0.4)
        (Real.pi / 6)).center.x
      (calculateShotgunSpread 0 0 0 (defaultConfig.maxDistance * 0.4)
        (Real.pi / 6)).center.y = some ⟨100, 0⟩ := by
    simp only [checkRaycastHitWall, wallAtX, calculateShotgunSpread,
      calculateLinearTrajectory, defaultConfig]
    norm_num
  have hdist : distBetween 0 0 (100 : ℝ) 0 = 100 := by
    rw [distBetween,
      show ((100 : ℝ) - 0) ^ 2 + ((0 : ℝ) - 0) ^ 2 = 100 ^ 2 by norm_num]
    exact Real.sqrt_sq (by norm_num)
  refine ⟨?_, ?_, ?_⟩ <;>
    simp [showShotgunAiming, hray, hdist]

/-- C10: a weapon aiming result carries a trajectory sample sequence exactly
when the category is THROWER; every other weapon category returns a target
point and no trajectory. -/
theorem trajectory_present_iff_thrower (w : State)
    (startX startY angle joystickDistance : ℝ) (weaponType : String) :
    ((showAiming w startX startY angle joystickDistance
        weaponType).1.trajectoryPoints ≠ none) ↔ weaponType = "THROWER" := by
  unfold showAiming
  simp only []
  split <;>
    simp_all [showSniperAiming, showShotgunAiming, showThrowerAiming,
      showBombAiming, showMachineGunAiming, showDefaultAiming]

end WeaponAiming
